import Mathlib

/-!
Verification development for the `NumberField` component
(`src/Field/Number.js` of the cryptii repository).

The field is embedded shallowly:
* The mutable attributes set by the constructor and the setters
  (`_integer`, `_step`, `_min`, `_max`, `_rotate`) together with the value
  held by the base `Field` become the record `NumberFieldState`.
* JavaScript numbers that can appear here are modelled as `Option ℚ`,
  where `none` stands for `NaN` (or any non-finite number) and `some q`
  for the finite number `q`.  A nullable number (`number | null`) is also
  `Option ℚ`, with `none` standing for `null`; JavaScript coerces `null`
  to `0` in arithmetic and relational positions, which `jsNum` captures.
* The base `Field` class is not part of the analysed sources, so its
  behaviour enters as explicit parameters: `sf` for the generic
  `super.filterValue`, `sv` for the generic `super.validateValue`, a
  `Bool` for `isValid()`, and an `Option ℚ` for the result of the generic
  `super.randomizeValue`.
-/

set_option maxHeartbeats 1000000
set_option maxRecDepth 100000

/-- Result of `validateValue`: either the literal `true` of the source, or a
structured failure object carrying a machine-readable key and a
human-readable message. -/
inductive VRes where
  | ok : VRes
  | err (key : String) (message : String) : VRes
deriving DecidableEq, Repr

/-- The key of a failure result, `none` on success. -/
def VRes.key : VRes → Option String
  | .ok => none
  | .err k _ => some k

/-- The state of a `NumberField` instance: the five numeric-field attributes
plus the current value, which is owned by the base `Field` (modelled from the
spec: the base class stores the value and exposes `getValue`/`setValue`). -/
structure NumberFieldState where
  integer : Bool
  step : ℚ
  min : Option ℚ
  max : Option ℚ
  rotate : Bool
  value : ℚ
deriving DecidableEq, Repr

/-- The options bag accepted by the constructor.  `none` models an absent
entry (JavaScript `undefined`). -/
structure NumberOptions where
  integer : Option Bool := none
  step : Option ℚ := none
  min : Option ℚ := none
  max : Option ℚ := none
  rotate : Option Bool := none
  describeValue : Option (ℚ → NumberFieldState → String) := none

/-- JavaScript truthiness of a finite number: `0` is falsy. -/
def jsTruthy (q : ℚ) : Bool := decide (q ≠ 0)

/-- `options.x || defaultNumber` for a possibly absent numeric option. -/
def jsOrNum (o : Option ℚ) (d : ℚ) : ℚ :=
  match o with
  | some q => if jsTruthy q then q else d
  | none => d

/-- `options.x || null` for a possibly absent nullable numeric option. -/
def jsOrNull (o : Option ℚ) : Option ℚ :=
  match o with
  | some q => if jsTruthy q then some q else none
  | none => none

/-- `options.x || defaultBool` for a possibly absent boolean option. -/
def jsOrBool (o : Option Bool) (d : Bool) : Bool :=
  match o with
  | some b => b || d
  | none => d

/-- JavaScript numeric coercion of a `number | null` operand: `null` turns
into `0` in arithmetic and relational comparisons. -/
def jsNum : Option ℚ → ℚ
  | some q => q
  | none => 0

/-- The constructor body: each `_x = options.x || default` assignment, with
`_rotate = (options.rotate || true) && this._min !== null && this._max !== null`.
The initial value `v0` is the one held by the base `Field`. -/
def construct (o : NumberOptions) (v0 : ℚ) : NumberFieldState :=
  { integer := jsOrBool o.integer false
    step := jsOrNum o.step 1
    min := jsOrNull o.min
    max := jsOrNull o.max
    rotate := jsOrBool o.rotate true && (jsOrNull o.min).isSome && (jsOrNull o.max).isSome
    value := v0 }

/-- `this._describeValueCallback = options.describeValue || null` (a function
is always truthy). -/
def constructDescribe (o : NumberOptions) : Option (ℚ → NumberFieldState → String) :=
  o.describeValue

/-- `isInteger ()`. -/
def isInteger (f : NumberFieldState) : Bool := f.integer

/-- `setInteger (integer)` state change (the source then returns
`this.revalidateValue()`, which yields the field itself). -/
def setInteger (f : NumberFieldState) (b : Bool) : NumberFieldState :=
  { f with integer := b }

/-- `getStep ()`. -/
def getStep (f : NumberFieldState) : ℚ := f.step

/-- `setStep (step)` state change. -/
def setStep (f : NumberFieldState) (s : ℚ) : NumberFieldState :=
  { f with step := s }

/-- `getMin ()`. -/
def getMin (f : NumberFieldState) : Option ℚ := f.min

/-- `setMin (min)` state change: only `_min` is assigned; `_rotate` is left
untouched. -/
def setMin (f : NumberFieldState) (m : Option ℚ) : NumberFieldState :=
  { f with min := m }

/-- `getMax ()`. -/
def getMax (f : NumberFieldState) : Option ℚ := f.max

/-- `setMax (max)` state change: only `_max` is assigned; `_rotate` is left
untouched. -/
def setMax (f : NumberFieldState) (m : Option ℚ) : NumberFieldState :=
  { f with max := m }

/-- `isRotate ()`. -/
def isRotate (f : NumberFieldState) : Bool := f.rotate

/-- `setRotate (rotate)`:
`this._rotate = rotate && this._min !== null && this._max !== null`. -/
def setRotate (f : NumberFieldState) (r : Bool) : NumberFieldState :=
  { f with rotate := r && f.min.isSome && f.max.isSome }

/-- JavaScript `parseInt` applied to a finite number: truncation toward
zero (via the decimal string rendering of the number). -/
def jsParseInt (q : ℚ) : ℚ :=
  if q < 0 then (⌈q⌉ : ℚ) else (⌊q⌋ : ℚ)

/-- `filterValue (rawValue)`: `parseInt` in integer mode, `parseFloat`
otherwise (the identity on finite numbers), then delegation to the base
class filter `sf`.  `parseInt`/`parseFloat` of `NaN` is `NaN`. -/
def filterValue (f : NumberFieldState) (sf : Option ℚ → Option ℚ)
    (raw : Option ℚ) : Option ℚ :=
  sf (if f.integer then Option.map jsParseInt raw else raw)

/-- `validateValue (rawValue)`: filter, reject non-finite values with
`numberNotNumeric`, reject values below `_min` with `numberTooSmall`,
reject values at or above the exclusive `_max` with `numberTooLarge`,
otherwise delegate to the base class validation `sv`. -/
def validateValue (f : NumberFieldState) (sf : Option ℚ → Option ℚ)
    (sv : ℚ → VRes) (raw : Option ℚ) : VRes :=
  match filterValue f sf raw with
  | none => .err "numberNotNumeric" "The value is not numeric"
  | some value =>
    match f.min with
    | some m =>
      if value < m then
        .err "numberTooSmall"
          ("The value must be greater than or equal to " ++ toString m)
      else
        match f.max with
        | some mx =>
          if mx ≤ value then
            .err "numberTooLarge" ("The value must be less than " ++ toString mx)
          else sv value
        | none => sv value
    | none =>
      match f.max with
      | some mx =>
        if mx ≤ value then
          .err "numberTooLarge" ("The value must be less than " ++ toString mx)
        else sv value
      | none => sv value

/-- One loop iteration's candidate: `value += step`, then the two rotation
branches (`value > this._max` wraps to `_min`; `value < this._min` wraps to
`_max + step`), with `null` bounds coercing to `0` in the comparisons. -/
def stepCandidate (f : NumberFieldState) (step value : ℚ) : ℚ :=
  if f.rotate = true ∧ jsNum f.max < value + step then jsNum f.min
  else if f.rotate = true ∧ value + step < jsNum f.min then jsNum f.max + step
  else value + step

/-- The `while` loop of `stepValue`, with the remaining number of tries as
fuel.  Returns the found value (or `none`) together with the number of
step-and-validate attempts performed.  The loop guard
`(this._rotate || step > 0 || value !== this._min) &&
 (this._rotate || step < 0 || value !== this._max)`
is checked before each iteration on the running value; `value !== null`
is always true for a number, which the `Option` inequality captures. -/
def stepValueAux (f : NumberFieldState) (sf : Option ℚ → Option ℚ)
    (sv : ℚ → VRes) (step : ℚ) : ℚ → Nat → Option ℚ × Nat
  | _, 0 => (none, 0)
  | value, n + 1 =>
    if (f.rotate = true ∨ 0 < step ∨ f.min ≠ some value) ∧
        (f.rotate = true ∨ step < 0 ∨ f.max ≠ some value) then
      if validateValue f sf sv (some (stepCandidate f step value)) = VRes.ok then
        (some (stepCandidate f step value), 1)
      else
        match stepValueAux f sf sv step (stepCandidate f step value) n with
        | (r, t) => (r, t + 1)
    else (none, 0)

/-- `stepValue (step, maxTries)`: start at the current value and search. -/
def stepValue (f : NumberFieldState) (sf : Option ℚ → Option ℚ)
    (sv : ℚ → VRes) (step : ℚ) (maxTries : Nat) : Option ℚ :=
  (stepValueAux f sf sv step f.value maxTries).1

/-- Number of step-and-validate attempts a `stepValue` call performs. -/
def stepTries (f : NumberFieldState) (sf : Option ℚ → Option ℚ)
    (sv : ℚ → VRes) (step : ℚ) (maxTries : Nat) : Nat :=
  (stepValueAux f sf sv step f.value maxTries).2

/-- What a JavaScript method returns: the field object itself (a reference,
possibly after mutation) or `undefined`. -/
inductive JSRet where
  | field (f : NumberFieldState) : JSRet
  | jsUndefined : JSRet
deriving DecidableEq, Repr

/-- Modelled from the spec: the base class `revalidateValue` re-runs
validation of the held value and returns the field itself (fluent
interface). -/
def revalidateValue (f : NumberFieldState) : JSRet := .field f

/-- Modelled from the spec: the base class `setValue` commits the value and
returns the field itself (fluent interface). -/
def setValue (f : NumberFieldState) (v : ℚ) : JSRet := .field { f with value := v }

/-- Return value of `setInteger`: `return this.revalidateValue()`. -/
def setIntegerRet (f : NumberFieldState) (b : Bool) : JSRet :=
  revalidateValue (setInteger f b)

/-- Return value of `setStep`: `return this`. -/
def setStepRet (f : NumberFieldState) (s : ℚ) : JSRet := .field (setStep f s)

/-- Return value of `setMin`: `return this.revalidateValue()`. -/
def setMinRet (f : NumberFieldState) (m : Option ℚ) : JSRet :=
  revalidateValue (setMin f m)

/-- Return value of `setMax`: `return this.revalidateValue()`. -/
def setMaxRet (f : NumberFieldState) (m : Option ℚ) : JSRet :=
  revalidateValue (setMax f m)

/-- Return value of `setRotate`: `return this`. -/
def setRotateRet (f : NumberFieldState) (r : Bool) : JSRet := .field (setRotate f r)

/-- `stepUp ()`: `stepValue(this._step)` with the default 100 tries, then
commit through the base setter when a value was found, else `return this`. -/
def stepUp (f : NumberFieldState) (sf : Option ℚ → Option ℚ)
    (sv : ℚ → VRes) : JSRet :=
  match stepValue f sf sv f.step 100 with
  | some v => setValue f v
  | none => .field f

/-- `stepDown ()`: like `stepUp` with `-this._step`. -/
def stepDown (f : NumberFieldState) (sf : Option ℚ → Option ℚ)
    (sv : ℚ → VRes) : JSRet :=
  match stepValue f sf sv (-f.step) 100 with
  | some v => setValue f v
  | none => .field f

/-- `setNeedsValueDescriptionUpdate ()`: its body is the expression
statement `this.hasView() && this.getView().updateValue()` and the method
has no `return` statement, so it returns `undefined` whatever the view
state is. -/
def setNeedsValueDescriptionUpdate (_f : NumberFieldState) (_hasView : Bool) : JSRet :=
  .jsUndefined

/-- `getValueDescription ()`: `null` unless `isValid()` holds (provided by
the base class, passed in as `valid`) and a callback is configured;
otherwise the callback applied to the current value and the field. -/
def getValueDescription (f : NumberFieldState) (valid : Bool)
    (cb : Option (ℚ → NumberFieldState → String)) : Option String :=
  match valid, cb with
  | false, _ => none
  | true, none => none
  | true, some c => some (c f.value f)

/-- The injected random capability:
`nextInteger(minInclusive, maxInclusive)` and
`nextFloat(minInclusive, maxExclusive)`. -/
structure Rng where
  nextInteger : ℚ → ℚ → ℚ
  nextFloat : ℚ → ℚ → ℚ

/-- `randomizeValue (random)`: defer to the base class result `sr`; when it
is `null` and both bounds are set, sample
`random.nextInteger(this.getMin(), Math.ceil(this.getMax()) - 1)` in
integer mode and `random.nextFloat(this.getMin(), this.getMax())`
otherwise; with a missing bound return `null`. -/
def randomizeValue (f : NumberFieldState) (sr : Option ℚ) (r : Rng) :
    Option ℚ :=
  match sr with
  | some v => some v
  | none =>
    match f.min, f.max with
    | some mn, some mx =>
      some (if f.integer then r.nextInteger mn ((⌈mx⌉ : ℚ) - 1)
            else r.nextFloat mn mx)
    | _, _ => none

/-- States reachable from the constructor by any sequence of setter calls
(`setInteger`, `setStep`, `setMin`, `setMax`, `setRotate`). -/
inductive Reachable : NumberFieldState → Prop
  | init (o : NumberOptions) (v0 : ℚ) : Reachable (construct o v0)
  | rInteger {f : NumberFieldState} (b : Bool) :
      Reachable f → Reachable (setInteger f b)
  | rStep {f : NumberFieldState} (s : ℚ) :
      Reachable f → Reachable (setStep f s)
  | rMin {f : NumberFieldState} (m : Option ℚ) :
      Reachable f → Reachable (setMin f m)
  | rMax {f : NumberFieldState} (m : Option ℚ) :
      Reachable f → Reachable (setMax f m)
  | rRotate {f : NumberFieldState} (b : Bool) :
      Reachable f → Reachable (setRotate f b)

/-! ## Fixtures and helper lemmas -/

/-- A failure object is never the literal `true`. -/
@[simp] theorem VRes.err_ne_ok (k m : String) : ¬ (VRes.err k m = VRes.ok) := by
  intro h
  cases h

/-- Base-class filter that applies no further change. -/
def jsId : Option ℚ → Option ℚ := fun x => x

/-- Base-class validation that accepts every value. -/
def svOk : ℚ → VRes := fun _ => VRes.ok

/-- Base-class validation (a custom rule) that rejects every value. -/
def svRej : ℚ → VRes := fun _ => VRes.err "custom" "always rejected"

/-- The rotation example of the spec: bounds 0 and 10, step 1, rotation on,
current value 9. -/
def fRot : NumberFieldState :=
  { integer := false, step := 1, min := some 0, max := some 10, rotate := true, value := 9 }

/-- Same configuration with current value 0. -/
def fRotAtZero : NumberFieldState := { fRot with value := 0 }

/-- Rotation disabled, bounds 0 and 10, current value 0 (at the minimum). -/
def fAtMin : NumberFieldState :=
  { integer := false, step := 1, min := some 0, max := some 10, rotate := false, value := 0 }

/-- Rotation disabled, bounds 0 and 10, current value 10 (at the maximum). -/
def fAtMax : NumberFieldState := { fAtMin with value := 10 }

/-- Rotation disabled, bounds 0 and 10, current value 5. -/
def fMid : NumberFieldState := { fAtMin with value := 5 }

/-- A state whose minimum 5 exceeds its maximum 3. -/
def fWeird : NumberFieldState :=
  { integer := false, step := 1, min := some 5, max := some 3, rotate := false, value := 0 }

/-- Integer mode with bounds 0 and 5, the randomization example of the spec. -/
def fRand05 : NumberFieldState :=
  { integer := true, step := 1, min := some 0, max := some 5, rotate := true, value := 0 }

/-- Integer mode with bounds 2 and 8. -/
def fBounds28 : NumberFieldState :=
  { integer := true, step := 1, min := some 2, max := some 8, rotate := true, value := 5 }

/-- Every value the loop of `stepValue` returns was accepted by
`validateValue`. -/
theorem stepValueAux_sound (f : NumberFieldState) (sf : Option ℚ → Option ℚ)
    (sv : ℚ → VRes) (step : ℚ) :
    ∀ (n : Nat) (value v : ℚ),
      (stepValueAux f sf sv step value n).1 = some v →
      validateValue f sf sv (some v) = VRes.ok := by
  intro n
  induction n with
  | zero =>
    intro value v h
    simp [stepValueAux] at h
  | succ n ih =>
    intro value v h
    simp only [stepValueAux] at h
    split at h
    · split at h
      · rename_i hv
        simp only [Prod.fst] at h
        obtain rfl : stepCandidate f step value = v := Option.some.inj h
        exact hv
      · rcases he : stepValueAux f sf sv step (stepCandidate f step value) n with ⟨r, t⟩
        rw [he] at h
        simp only [Prod.fst] at h
        exact ih (stepCandidate f step value) v (by rw [he]; exact h)
    · simp at h

/-- The loop of `stepValue` performs at most `maxTries` attempts. -/
theorem stepValueAux_tries_le (f : NumberFieldState) (sf : Option ℚ → Option ℚ)
    (sv : ℚ → VRes) (step : ℚ) :
    ∀ (n : Nat) (value : ℚ), (stepValueAux f sf sv step value n).2 ≤ n := by
  intro n
  induction n with
  | zero =>
    intro value
    simp [stepValueAux]
  | succ n ih =>
    intro value
    simp only [stepValueAux]
    split
    · split
      · simp
      · rcases he : stepValueAux f sf sv step (stepCandidate f step value) n with ⟨r, t⟩
        have h := ih (stepCandidate f step value)
        rw [he] at h
        simpa using Nat.succ_le_succ h
    · simp

/-- When validation accepts no value at all, the loop finds nothing, and with
rotation enabled it uses up all its fuel. -/
theorem stepValueAux_reject (f : NumberFieldState) (sf : Option ℚ → Option ℚ)
    (sv : ℚ → VRes)
    (hrej : ∀ w : ℚ, validateValue f sf sv (some w) ≠ VRes.ok) (step : ℚ) :
    ∀ (n : Nat) (value : ℚ),
      (stepValueAux f sf sv step value n).1 = none ∧
      (f.rotate = true → (stepValueAux f sf sv step value n).2 = n) := by
  intro n
  induction n with
  | zero =>
    intro value
    simp [stepValueAux]
  | succ n ih =>
    intro value
    simp only [stepValueAux]
    split
    · rw [if_neg (hrej (stepCandidate f step value))]
      rcases he : stepValueAux f sf sv step (stepCandidate f step value) n with ⟨r, t⟩
      have h := ih (stepCandidate f step value)
      rw [he] at h
      refine ⟨by simpa using h.1, fun hr => ?_⟩
      simpa using h.2 hr
    · rename_i hg
      exact ⟨by simp, fun hr => absurd ⟨Or.inl hr, Or.inl hr⟩ hg⟩

/-! ## Claims -/

/-- Options enabling rotation at construction time. -/
def oBad : NumberOptions := { min := some 1, max := some 10 }

/-- Claim C1 (counterexample): the state reached by the constructor with
bounds 1 and 10 followed by `setMin(null)` still reports `isRotate()` as
true although its stored minimum is null, so the claimed invariant fails on
a reachable state. -/
theorem rotate_invariant_counterexample :
    Reachable (setMin (construct oBad 0) none) ∧
    isRotate (setMin (construct oBad 0) none) = true ∧
    getMin (setMin (construct oBad 0) none) = none := by
  refine ⟨Reachable.rMin none (Reachable.init oBad 0), ?_, ?_⟩ <;>
    norm_num [isRotate, getMin, setMin, construct, oBad, jsOrNull, jsOrBool, jsTruthy]

/-- Claim C1 (amended): `isRotate()` is true only if both bounds were
non-null at the moment rotation was last assigned — by the constructor or by
`setRotate` — while `setMin`, `setMax`, `setInteger` and `setStep` leave the
rotation flag unchanged (so clearing a bound afterwards can leave a stale
true flag). -/
theorem rotate_invariant_amended (o : NumberOptions) (v0 : ℚ)
    (f : NumberFieldState) (b : Bool) (m : Option ℚ) (s : ℚ) :
    (isRotate (construct o v0) = true →
      (getMin (construct o v0)).isSome ∧ (getMax (construct o v0)).isSome) ∧
    (isRotate (setRotate f b) = true → f.min.isSome ∧ f.max.isSome) ∧
    isRotate (setMin f m) = isRotate f ∧
    isRotate (setMax f m) = isRotate f ∧
    isRotate (setInteger f b) = isRotate f ∧
    isRotate (setStep f s) = isRotate f := by
  refine ⟨?_, ?_, rfl, rfl, rfl, rfl⟩
  · intro h
    simp only [isRotate, construct, Bool.and_eq_true] at h
    exact ⟨h.1.2, h.2⟩
  · intro h
    simp only [isRotate, setRotate, Bool.and_eq_true] at h
    exact ⟨h.1.2, h.2⟩

/-- Witness for the amended claim C1 at a concrete state. -/
theorem rotate_invariant_witness :
    isRotate (setRotate fAtMin true) = true ∧ fAtMin.min.isSome ∧ fAtMin.max.isSome := by
  have h : isRotate (setRotate fAtMin true) = true := by
    norm_num [isRotate, setRotate, fAtMin]
  exact ⟨h, (rotate_invariant_amended oBad 0 fAtMin true none 1).2.1 h⟩

/-- Claim C2 (code bug): supplied falsy option values are not stored as
given.  The constructor uses the JavaScript or-operator for defaulting, so
`min: 0` is stored as null, `step: 0` as 1, and `rotate: false` — with both
bounds supplied — still yields `isRotate() == true` because the expression
`options.rotate || true` is constantly true; supplied truthy values are
stored as given and the documented defaults do apply when an option is
absent. -/
theorem constructor_options_code_bug :
    getMin (construct { min := some 0 } 0) = none ∧
    getStep (construct { step := some 0 } 0) = 1 ∧
    isRotate (construct { rotate := some false, min := some 1, max := some 5 } 0) = true ∧
    isInteger (construct {} 0) = false ∧
    getStep (construct {} 0) = 1 ∧
    getMin (construct {} 0) = none ∧
    getMax (construct {} 0) = none ∧
    getMin (construct { min := some 2, max := some 7 } 0) = some 2 ∧
    getMax (construct { min := some 2, max := some 7 } 0) = some 7 ∧
    isRotate (construct { min := some 2, max := some 7 } 0) = true := by
  norm_num [construct, getMin, getMax, getStep, isRotate, isInteger,
    jsOrNull, jsOrNum, jsOrBool, jsTruthy]

/-- Claim C4: with bounds 0 and 10, step 1 and rotation enabled, and base
validation accepting every in-range value, stepping up from 9 wraps to 0 and
stepping down from 0 wraps to 10 + (-1) = 9. -/
theorem rotation_stepping_examples :
    stepValue fRot jsId svOk 1 100 = some 0 ∧
    stepValue fRotAtZero jsId svOk (-1) 100 = some 9 := by
  constructor <;>
    norm_num [stepValue, stepValueAux, stepCandidate, validateValue, filterValue,
      jsNum, jsId, svOk, fRot, fRotAtZero]

/-- Claim C3 (counterexample): with minimum 5 and maximum 3 the value 4 is
at or above the maximum, yet `validateValue` reports `numberTooSmall`, not
`numberTooLarge`, because the minimum check runs first. -/
theorem validate_bounds_counterexample :
    fWeird.max = some 3 ∧ (3 : ℚ) ≤ 4 ∧
    (validateValue fWeird jsId svOk (some 4)).key = some "numberTooSmall" ∧
    (validateValue fWeird jsId svOk (some 4)).key ≠ some "numberTooLarge" := by
  have h : (validateValue fWeird jsId svOk (some 4)).key = some "numberTooSmall" := by
    norm_num [validateValue, filterValue, fWeird, jsId, VRes.key]
  refine ⟨rfl, by norm_num, h, ?_⟩
  rw [h]
  decide

/-- Claim C3 (amended): for a finite value `v` left unchanged by filtering,
a set minimum with `v` below it yields `numberTooSmall`; a set maximum with
`v` at or above it yields `numberTooLarge` provided `v` is not already
rejected by the minimum check (no minimum, or `v` at least the minimum);
with `minimum ≤ v < maximum` the result is exactly the base validation's
result (so neither of the two bound failures); and a value filtering to a
non-finite number yields `numberNotNumeric` before any bounds check. -/
theorem validate_bounds_amended (f : NumberFieldState)
    (sf : Option ℚ → Option ℚ) (sv : ℚ → VRes) (v m mx : ℚ)
    (hsf : sf (some v) = some v)
    (hInt : f.integer = true → jsParseInt v = v) :
    (f.min = some m → v < m →
      (validateValue f sf sv (some v)).key = some "numberTooSmall") ∧
    (f.max = some mx → mx ≤ v → (∀ m0, f.min = some m0 → m0 ≤ v) →
      (validateValue f sf sv (some v)).key = some "numberTooLarge") ∧
    (f.min = some m → f.max = some mx → m ≤ v → v < mx →
      validateValue f sf sv (some v) = sv v) ∧
    (∀ raw, filterValue f sf raw = none →
      (validateValue f sf sv raw).key = some "numberNotNumeric") := by
  have hfil : filterValue f sf (some v) = some v := by
    unfold filterValue
    cases hi : f.integer with
    | false => simpa using hsf
    | true => simpa [hInt hi] using hsf
  refine ⟨?_, ?_, ?_, ?_⟩
  · intro hm hlt
    simp only [validateValue, hfil, hm]
    rw [if_pos hlt]
    rfl
  · intro hmx hge hmin
    cases hm : f.min with
    | none =>
      simp only [validateValue, hfil, hmx, hm]
      rw [if_pos hge]
      rfl
    | some m0 =>
      simp only [validateValue, hfil, hmx, hm]
      rw [if_neg (not_lt.mpr (hmin m0 hm)), if_pos hge]
      rfl
  · intro hm hmx hle hlt
    simp only [validateValue, hfil, hm, hmx]
    rw [if_neg (not_lt.mpr hle), if_neg (not_le.mpr hlt)]
  · intro raw hraw
    simp only [validateValue, hraw]
    rfl

/-- Witness for the amended claim C3 at concrete inputs: minimum 2,
maximum 8, integer mode, value 1 is too small, value 9 too large, value 5
passes to the accepting base validation, and `NaN` is not numeric. -/
theorem validate_bounds_witness :
    (validateValue fBounds28 jsId svOk (some 1)).key = some "numberTooSmall" ∧
    (validateValue fBounds28 jsId svOk (some 9)).key = some "numberTooLarge" ∧
    validateValue fBounds28 jsId svOk (some 5) = svOk 5 ∧
    (validateValue fBounds28 jsId svOk none).key = some "numberNotNumeric" := by
  have h1 := validate_bounds_amended fBounds28 jsId svOk 1 2 8 rfl
    (fun _ => by norm_num [jsParseInt])
  have h9 := validate_bounds_amended fBounds28 jsId svOk 9 2 8 rfl
    (fun _ => by norm_num [jsParseInt])
  have h5 := validate_bounds_amended fBounds28 jsId svOk 5 2 8 rfl
    (fun _ => by norm_num [jsParseInt])
  refine ⟨h1.1 rfl (by norm_num), ?_, ?_, ?_⟩
  · refine h9.2.1 rfl (by norm_num) ?_
    intro m0 hm0
    injection hm0 with hm0
    rw [← hm0]
    norm_num
  · exact h5.2.2.1 rfl rfl (by norm_num) (by norm_num)
  · exact h5.2.2.2 none (by simp [filterValue, fBounds28, jsId])

/-- Claim C5 (counterexample): rotation disabled, bounds 0 and 10, current
value 5, stepping by -1 with an always-rejecting base validator and
`maxTries = 100`: every candidate the search tries (4, 3, 2, 1, 0) fails
validation, yet the call performs 5 attempts, not 100 — the non-rotation
boundary guard stops the loop at the minimum. -/
theorem stepValue_tries_counterexample :
    validateValue fMid jsId svRej (some 4) ≠ VRes.ok ∧
    validateValue fMid jsId svRej (some 3) ≠ VRes.ok ∧
    validateValue fMid jsId svRej (some 2) ≠ VRes.ok ∧
    validateValue fMid jsId svRej (some 1) ≠ VRes.ok ∧
    validateValue fMid jsId svRej (some 0) ≠ VRes.ok ∧
    stepValue fMid jsId svRej (-1) 100 = none ∧
    stepTries fMid jsId svRej (-1) 100 = 5 ∧
    (5 : Nat) ≠ 100 := by
  refine ⟨?_, ?_, ?_, ?_, ?_, ?_, ?_, by norm_num⟩ <;>
    norm_num [stepValue, stepTries, stepValueAux, stepCandidate, validateValue,
      filterValue, jsNum, jsId, svRej, fMid, fAtMin]

/-- Claim C5 (amended): `stepValue` always terminates and performs at most
`maxTries` step-and-validate attempts; when validation accepts no value it
returns null (and, the embedding being state-pure like the source loop, no
field state is mutated), and it performs exactly `maxTries` attempts when
additionally rotation is enabled (so that the boundary guard cannot stop
the search early). -/
theorem stepValue_tries_amended (f : NumberFieldState)
    (sf : Option ℚ → Option ℚ) (sv : ℚ → VRes) (step : ℚ) (n : Nat) :
    stepTries f sf sv step n ≤ n ∧
    ((∀ w : ℚ, validateValue f sf sv (some w) ≠ VRes.ok) →
      stepValue f sf sv step n = none ∧
      (f.rotate = true → stepTries f sf sv step n = n)) := by
  refine ⟨stepValueAux_tries_le f sf sv step n f.value, fun hrej => ?_⟩
  exact stepValueAux_reject f sf sv hrej step n f.value

/-- Witness for the amended claim C5: rotation enabled, bounds 0 and 10,
always-rejecting base validation, 7 tries are all used up and no value is
found. -/
theorem stepValue_tries_witness :
    stepTries fRot jsId svRej 1 7 ≤ 7 ∧
    stepValue fRot jsId svRej 1 7 = none ∧
    stepTries fRot jsId svRej 1 7 = 7 := by
  have hrej : ∀ w : ℚ, validateValue fRot jsId svRej (some w) ≠ VRes.ok := by
    intro w
    unfold validateValue filterValue
    simp only [fRot, jsId, svRej]
    split
    · simp
    · split
      · simp
      · split <;> simp
  have h := stepValue_tries_amended fRot jsId svRej 1 7
  exact ⟨h.1, (h.2 hrej).1, (h.2 hrej).2 rfl⟩

/-- Claim C6: with rotation disabled, a call stepping downward from a value
equal to the stored minimum — or upward from a value equal to the stored
maximum — returns null with zero step-and-validate attempts: the loop guard
fails before the first iteration. -/
theorem boundary_guard (f : NumberFieldState) (sf : Option ℚ → Option ℚ)
    (sv : ℚ → VRes) (step m mx : ℚ) (n : Nat) :
    (f.rotate = false → f.min = some m → f.value = m → step < 0 →
      stepValue f sf sv step n = none ∧ stepTries f sf sv step n = 0) ∧
    (f.rotate = false → f.max = some mx → f.value = mx → 0 < step →
      stepValue f sf sv step n = none ∧ stepTries f sf sv step n = 0) := by
  constructor
  · intro h1 h2 h3 h4
    have h5 : ¬ (0 : ℚ) < step := not_lt.mpr h4.le
    cases n with
    | zero => simp [stepValue, stepTries, stepValueAux]
    | succ n => constructor <;> simp [stepValue, stepTries, stepValueAux, h1, h2, h3, h5]
  · intro h1 h2 h3 h4
    have h5 : ¬ step < (0 : ℚ) := not_lt.mpr h4.le
    cases n with
    | zero => simp [stepValue, stepTries, stepValueAux]
    | succ n => constructor <;> simp [stepValue, stepTries, stepValueAux, h1, h2, h3, h5]

/-- Witness for claim C6: bounds 0 and 10 without rotation; stepping down
from 0 and up from 10 return null immediately. -/
theorem boundary_guard_witness :
    (stepValue fAtMin jsId svOk (-1) 100 = none ∧ stepTries fAtMin jsId svOk (-1) 100 = 0) ∧
    (stepValue fAtMax jsId svOk 1 100 = none ∧ stepTries fAtMax jsId svOk 1 100 = 0) := by
  constructor
  · exact (boundary_guard fAtMin jsId svOk (-1) 0 10 100).1 rfl rfl rfl (by norm_num)
  · exact (boundary_guard fAtMax jsId svOk 1 0 10 100).2 rfl rfl rfl (by norm_num)

/-- Claim C7: the upward wrap fires only when the candidate strictly
exceeds the exclusive maximum — a candidate equal to the maximum is not
wrapped, fails validation as `numberTooLarge` and consumes one try, so
stepping up from maximum - step (here 9, bounds 0 and 10) finds nothing
with one try but reaches the minimum with two — and every non-null result
of `stepValue` satisfies `validateValue`. -/
theorem stepValue_sound (f : NumberFieldState) (sf : Option ℚ → Option ℚ)
    (sv : ℚ → VRes) (step : ℚ) (n : Nat) (v : ℚ)
    (h : stepValue f sf sv step n = some v) :
    validateValue f sf sv (some v) = VRes.ok ∧
    stepValue fRot jsId svOk 1 1 = none ∧
    stepTries fRot jsId svOk 1 1 = 1 ∧
    (validateValue fRot jsId svOk (some 10)).key = some "numberTooLarge" ∧
    stepValue fRot jsId svOk 1 2 = some 0 := by
  refine ⟨stepValueAux_sound f sf sv step n f.value v h, ?_, ?_, ?_, ?_⟩ <;>
    norm_num [stepValue, stepTries, stepValueAux, stepCandidate, validateValue,
      filterValue, jsNum, jsId, svOk, fRot, VRes.key]

/-- Witness for claim C7 at the concrete rotation example. -/
theorem stepValue_sound_witness :
    stepValue fRot jsId svOk 1 2 = some 0 ∧
    validateValue fRot jsId svOk (some 0) = VRes.ok := by
  have h : stepValue fRot jsId svOk 1 2 = some 0 := by
    norm_num [stepValue, stepValueAux, stepCandidate, validateValue,
      filterValue, jsNum, jsId, svOk, fRot]
  exact ⟨h, (stepValue_sound fRot jsId svOk 1 2 0 h).1⟩

/-- Claim C8 (code bug): `setInteger`, `setStep`, `setMin`, `setMax`,
`setRotate`, `stepUp` and `stepDown` do return the field instance, but
`setNeedsValueDescriptionUpdate` has no return statement — its body is the
bare expression `this.hasView() && this.getView().updateValue()` — so it
returns undefined, contrary to its own `@return {NumberField} Fluent
interface` documentation. -/
theorem mutator_returns_code_bug :
    setNeedsValueDescriptionUpdate fRot true = JSRet.jsUndefined ∧
    setNeedsValueDescriptionUpdate fRot false = JSRet.jsUndefined ∧
    JSRet.jsUndefined ≠ JSRet.field fRot ∧
    setIntegerRet fRot true = JSRet.field (setInteger fRot true) ∧
    setStepRet fRot 2 = JSRet.field (setStep fRot 2) ∧
    setMinRet fRot (some 1) = JSRet.field (setMin fRot (some 1)) ∧
    setMaxRet fRot (some 20) = JSRet.field (setMax fRot (some 20)) ∧
    setRotateRet fRot false = JSRet.field (setRotate fRot false) ∧
    stepUp fRot jsId svOk = JSRet.field { fRot with value := 0 } ∧
    stepDown fRot jsId svOk = JSRet.field { fRot with value := 8 } := by
  refine ⟨rfl, rfl, by simp, rfl, rfl, rfl, rfl, rfl, ?_, ?_⟩ <;>
    norm_num [stepUp, stepDown, stepValue, stepValueAux, stepCandidate,
      validateValue, filterValue, setValue, jsNum, jsId, svOk, fRot]

/-- Claim C9: when the base randomization yields null, `randomizeValue`
returns `nextInteger(minimum, ceil(maximum) - 1)` in integer mode and
`nextFloat(minimum, maximum)` otherwise when both bounds are set, and null
when a bound is missing; with bounds 0 and 5 in integer mode the result
lies in 0, 1, 2, 3, 4 — never 5 — whenever the generator honours its
inclusive-integer contract on the requested range. -/
theorem randomize_bounds (f : NumberFieldState) (r : Rng) (mn mx : ℚ)
    (hk : ∃ k : ℤ, r.nextInteger 0 4 = (k : ℚ) ∧ 0 ≤ k ∧ k ≤ 4) :
    (f.min = some mn → f.max = some mx → f.integer = true →
      randomizeValue f none r = some (r.nextInteger mn ((⌈mx⌉ : ℚ) - 1))) ∧
    (f.min = some mn → f.max = some mx → f.integer = false →
      randomizeValue f none r = some (r.nextFloat mn mx)) ∧
    (f.min = none ∨ f.max = none → randomizeValue f none r = none) ∧
    (∃ q, randomizeValue fRand05 none r = some q ∧
      (q = 0 ∨ q = 1 ∨ q = 2 ∨ q = 3 ∨ q = 4)) := by
  refine ⟨?_, ?_, ?_, ?_⟩
  · intro h1 h2 h3
    simp [randomizeValue, h1, h2, h3]
  · intro h1 h2 h3
    simp [randomizeValue, h1, h2, h3]
  · intro h
    rcases h with h | h
    · simp [randomizeValue, h]
    · cases hm : f.min <;> simp [randomizeValue, h, hm]
  · obtain ⟨k, hk1, hk2, hk3⟩ := hk
    refine ⟨(k : ℚ), ?_, ?_⟩
    · simp only [randomizeValue, fRand05]
      norm_num [hk1]
    · have hcase : k = 0 ∨ k = 1 ∨ k = 2 ∨ k = 3 ∨ k = 4 := by omega
      rcases hcase with h | h | h | h | h <;> subst h <;> norm_num

/-- A deterministic generator honouring the bounds used in the witness. -/
def rng0 : Rng := { nextInteger := fun _ _ => 2, nextFloat := fun lo _ => lo }

/-- Witness for claim C9 with a concrete generator. -/
theorem randomize_bounds_witness :
    ∃ q, randomizeValue fRand05 none rng0 = some q ∧
      (q = 0 ∨ q = 1 ∨ q = 2 ∨ q = 3 ∨ q = 4) :=
  (randomize_bounds fRand05 rng0 0 5
    ⟨2, by norm_num [rng0], by norm_num, by norm_num⟩).2.2.2

/-- Claim C10: `getValueDescription` is null whenever the current value is
invalid (whatever the callback configuration) and whenever no callback is
configured; with a valid value and a configured callback it returns the
callback applied to the current value and the field. -/
theorem value_description_gate (f : NumberFieldState) (valid : Bool)
    (cb : Option (ℚ → NumberFieldState → String))
    (c : ℚ → NumberFieldState → String) :
    getValueDescription f false cb = none ∧
    getValueDescription f valid none = none ∧
    getValueDescription f true (some c) = some (c f.value f) := by
  refine ⟨rfl, ?_, rfl⟩
  cases valid <;> rfl

/-- A concrete description callback. -/
def descEx : ℚ → NumberFieldState → String := fun _ _ => "example"

/-- Witness for claim C10 at concrete inputs. -/
theorem value_description_gate_witness :
    getValueDescription fRot false (some descEx) = none ∧
    getValueDescription fRot true none = none ∧
    getValueDescription fRot true (some descEx) = some "example" := by
  have h := value_description_gate fRot true (some descEx) descEx
  have h2 := value_description_gate fRot false (some descEx) descEx
  exact ⟨h2.1, h.2.1, by rw [h.2.2]; rfl⟩
